import Mathlib

/-!
Verification of the quiz-generation backend.

Shallow embedding of app/api/v1/endpoints/questions.py: the data model,
the upstream Gemini call, response validation, the generate-quiz
orchestration, best-effort Firestore persistence, the topics endpoint
and the explanation endpoint.  Network and store effects are modelled by
explicit oracles passed as arguments; Python runtime behaviour that the
code relies on (dict access, list indexing with negative indices,
truthiness, short-circuit boolean operators) is embedded explicitly.
-/

namespace JeeSolver

/-- Raw item as decoded from the upstream JSON array.  A field is none
when the key is missing from the object (or, for answer_index, when the
value cannot be converted by int()).  These are the dictionaries the
per-item loop of generate_quiz consumes (questions.py lines 153-165). -/
structure RawItem where
  question : Option String := none
  options : Option (List String) := none
  answer_index : Option Int := none
  hint : Option String := none
  explanation : Option String := none
  topic : Option String := none
  deriving Repr, DecidableEq

/-- Normalized question record built by generate_quiz (questions.py
lines 156-162).  The id field is filled by the persistence loop. -/
structure Question where
  id : Option String
  subject : String
  topic : String
  question : String
  options : List String
  answer_index : Int
  correctAnswer : String
  hint : String
  explanation : String
  deriving Repr, DecidableEq

/-- Python list indexing l[i] for an int i, as used at questions.py line
160: a negative index addresses from the end of the list; an index out
of the range [-len, len) raises IndexError, modelled as none. -/
def pyGet (l : List String) (i : Int) : Option String :=
  if i < 0 then
    if 0 ≤ (l.length : Int) + i then l.get? ((l.length : Int) + i).toNat else none
  else l.get? i.toNat

/-- Python `x or d` for an optional string x (questions.py line 158):
yields d when x is absent or empty, since None and "" are falsy. -/
def pyOr (x : Option String) (d : String) : String :=
  match x with
  | none => d
  | some s => if s = "" then d else s

/-- Per-item validation and reshaping (questions.py lines 153-165).  The
loop body wraps the record construction in try/except and skips the item
on any exception: KeyError from a missing question, options or
answer_index key, a failing int() conversion, and IndexError from
options[answer_index] all drop the item.  Nothing else is checked; in
particular the option count is not, and a negative answer_index within
Python range is accepted. -/
def cleanItem (subject : String) (reqTopic : Option String) (q : RawItem) : Option Question :=
  match q.answer_index with
  | none => none
  | some ai =>
    match q.question with
    | none => none
    | some question =>
      match q.options with
      | none => none
      | some options =>
        match pyGet options ai with
        | none => none
        | some ca =>
          some { id := none
                 subject := subject
                 topic := q.topic.getD (pyOr reqTopic "Mixed")
                 question := question
                 options := options
                 answer_index := ai
                 correctAnswer := ca
                 hint := q.hint.getD "No hint available."
                 explanation := q.explanation.getD "No explanation available." }

/-- The static NTA syllabus registry (questions.py lines 39-60),
modelled as an association list since Python dict iteration order and
lookup are what the code uses. -/
def NTA_SYLLABUS : List (String × List String) :=
  [("Physics",
    ["Units and Measurements", "Kinematics", "Laws of Motion", "Work Energy Power",
     "Rotational Motion", "Gravitation", "Thermodynamics", "Kinetic Theory",
     "Waves", "Electrostatics", "Current Electricity", "Magnetism",
     "EM Induction and AC", "Optics", "Modern Physics"]),
   ("Chemistry",
    ["Some Basic Concepts of Chemistry", "Atomic Structure", "Chemical Bonding",
     "States of Matter", "Thermodynamics", "Equilibrium", "Redox Reactions",
     "s-Block Elements", "p-Block Elements", "d- and f- Block Elements",
     "Coordination Compounds", "Organic Chemistry Basics", "Hydrocarbons",
     "Haloalkanes and Haloarenes", "Alcohols Phenols Ethers", "Aldehydes Ketones Acids",
     "Amines", "Biomolecules", "Polymers", "Chemistry in Everyday Life"]),
   ("Maths",
    ["Sets Relations Functions", "Complex Numbers", "Quadratic Equations", "Sequences and Series",
     "Trigonometry", "Matrices Determinants", "Limits Continuity Differentiability",
     "Applications of Derivatives", "Integrals", "Differential Equations",
     "Vectors", "3D Geometry", "Probability", "Binomial Theorem", "Statistics"])]

/-- Python NTA_SYLLABUS.get(subject, []) (questions.py lines 137, 144). -/
def syllabusGetD (subject : String) : List String :=
  (NTA_SYLLABUS.lookup subject).getD []

/-- The request body of POST /generate-quiz (questions.py lines 70-73). -/
structure GenerateRequest where
  subject : String
  mode : String
  topic : Option String := none
  deriving Repr, DecidableEq

/-- The fixed mode-to-count mapping of questions.py line 147:
count = 5 if mode == "quick" else 30 if mode == "full" else 10. -/
def modeCount (mode : String) : Nat :=
  if mode = "quick" then 5 else if mode = "full" then 30 else 10

/-- The request-validation test of questions.py line 144:
mode == "topic" and (not req.topic or req.topic not in
NTA_SYLLABUS.get(subject, [])).  Note that only topic mode is validated;
the subject itself is never checked in the other modes. -/
def topicInvalid (req : GenerateRequest) : Bool :=
  req.mode == "topic" &&
    (match req.topic with
     | none => true
     | some t => t == "" || !((syllabusGetD req.subject).contains t))

/-- An HTTPException raised by the endpoint code, carrying the HTTP
status and the detail string (fastapi.HTTPException).  Status 500 with
detail Internal Server Error stands for an exception that escapes the
handler and is turned into a generic 500 by the framework. -/
structure HTTPError where
  status : Nat
  detail : String
  deriving Repr, DecidableEq

/-- What the decoded body of one upstream HTTP response amounts to for
_call_gemini (questions.py lines 110-118).
  badJson: r.json() itself fails; that call sits outside every
    try/except in _call_gemini, so the exception escapes and the
    framework answers 500.
  badEnvelope: the nested candidates/content/parts/text access raises
    KeyError or IndexError.  The except clause catches it, but its
    f-string then reads the local variable text, which was never
    assigned, so the handler raises UnboundLocalError and the framework
    answers 500.
  badText msg raw: the text field is extracted (raw, already defenced)
    but json.loads fails or the result is not a list; msg stands for the
    str() of the raised exception.  This is the 502 AI parse error path.
  items l: the text parses to a JSON array, whose elements are modelled
    as RawItem values (the defencing of a leading code fence at line 113
    is absorbed into this oracle). -/
inductive GeminiBody where
  | badJson
  | badEnvelope
  | badText (msg : String) (raw : String)
  | items (l : List RawItem)
  deriving Repr, DecidableEq

/-- The outcome of one requests.post to the Gemini endpoint:
  netFailure msg: a RequestException with message msg raised before any
    response is available (DNS failure, connection refused, ...).
  timeout msg: requests.exceptions.Timeout with message msg, raised when
    the 90 second deadline of questions.py line 105 passes.  Timeout is
    a subclass of RequestException, so the code cannot tell it apart.
  response status body: an HTTP response was received. -/
inductive NetOutcome where
  | netFailure (msg : String)
  | timeout (msg : String)
  | response (status : Nat) (body : GeminiBody)

/-- The message of the HTTPError that r.raise_for_status() raises for a
status in [400, 600); the exact text is produced by the requests
library, modelled here as a function of the status only. -/
def raiseForStatusMsg (status : Nat) : String :=
  toString status ++ " Error"

/-- Embedding of _call_gemini (questions.py lines 101-118).  The network
is an oracle net giving the outcome of the k-th POST of the request;
calls is the number of POSTs already made, and the returned number
counts the POSTs made after the call - the source performs exactly one
POST, with no retry and no backoff.  key models os.getenv for
GEMINI_API_KEY: when absent, _get_gemini_key raises HTTPException 500
before the POST (questions.py lines 62-66). -/
def callGemini (key : Option String) (net : Nat → NetOutcome) (prompt : String)
    (calls : Nat) : Except HTTPError (List RawItem) × Nat :=
  match key with
  | none => (Except.error { status := 500, detail := "GEMINI_API_KEY is not set on backend" }, calls)
  | some _ =>
    match net calls with
    | NetOutcome.netFailure msg =>
      (Except.error { status := 502, detail := "AI connection error: " ++ msg }, calls + 1)
    | NetOutcome.timeout msg =>
      (Except.error { status := 502, detail := "AI connection error: " ++ msg }, calls + 1)
    | NetOutcome.response status body =>
      if 400 ≤ status ∧ status < 600 then
        (Except.error { status := 502,
                        detail := "AI connection error: " ++ raiseForStatusMsg status }, calls + 1)
      else
        match body with
        | GeminiBody.badJson =>
          (Except.error { status := 500, detail := "Internal Server Error" }, calls + 1)
        | GeminiBody.badEnvelope =>
          (Except.error { status := 500, detail := "Internal Server Error" }, calls + 1)
        | GeminiBody.badText msg raw =>
          (Except.error { status := 502,
                          detail := "AI parse error: " ++ msg ++ " | Response was: " ++ raw },
           calls + 1)
        | GeminiBody.items l => (Except.ok l, calls + 1)

/-- The prompt builder _prompt of questions.py lines 86-99.  The oracle
for the network ignores the prompt, but the construction is embedded for
completeness; \x27 is an ASCII apostrophe and \x60 a backtick. -/
def promptFor (subject : String) (topic : Option String) (count : Nat) : String :=
  let topic_line :=
    match topic with
    | some t =>
      if t ≠ "" && t ≠ "random" then " on the specific topic of \x27" ++ t ++ "\x27"
      else " covering various important topics from the entire syllabus"
    | none => " covering various important topics from the entire syllabus"
  ("\nYou are an expert question creator for the Indian JEE Mains engineering entrance exam.\n" ++
   "Your primary directive is to generate " ++ toString count ++
   " new, completely original, high-quality multiple-choice questions (MCQs).\n\n" ++
   "**Strict Instructions:**\n" ++
   "1.  **Syllabus Adherence:** The questions MUST strictly adhere to the latest official NTA syllabus for JEE Mains for the subject \x27" ++
   subject ++ "\x27.\n" ++
   "2.  **Uniqueness:** Each question must be unique.\n" ++
   "3.  **Format:** Provide the output ONLY in a valid JSON array format. Do not add any text, comments, or markdown formatting like \x60\x60\x60json.\n" ++
   "4.  **JSON Structure:** Each object in the array must have these exact keys: \"question\", \"options\" (an array of 4 strings), \"answer_index\" (a number from 0 to 3), \"hint\", \"explanation\", and \"topic\".\n\n" ++
   "Generate a JSON array of exactly " ++ toString count ++ " questions for " ++ subject ++
   topic_line ++ " now.\n").trim

/-- Python mode.replace("_", " ") at questions.py line 188: the pattern
is the single underscore character, so the replacement is a character
map. -/
def replaceUnderscores (s : String) : String :=
  String.mk (s.data.map (fun c => if c = '_' then ' ' else c))

/-- Split a character list at space characters (an empty run between
two adjacent spaces yields an empty word, as str.split with an explicit
separator would). -/
def splitSpacesGo : List Char → List Char → List (List Char)
  | cur, [] => [cur.reverse]
  | cur, c :: rest =>
    if c = ' ' then cur.reverse :: splitSpacesGo [] rest
    else splitSpacesGo (c :: cur) rest

/-- Title-case one word: first character uppercased, the rest
lowercased, as CPython str.title() does for an alphabetic word. -/
def titleWord : List Char → List Char
  | [] => []
  | c :: rest => c.toUpper :: rest.map Char.toLower

/-- Rejoin words with single spaces. -/
def joinSpaces : List (List Char) → List Char
  | [] => []
  | [w] => w
  | w :: rest => w ++ ' ' :: joinSpaces rest

/-- Python str.title() restricted to space-separated alphabetic words -
the shape of the mode strings this code applies it to at questions.py
line 188. -/
def pyTitle (s : String) : String :=
  String.mk (joinSpaces ((splitSpacesGo [] s.data).map titleWord))

/-- The state of the Firestore client and of the writes it would serve.
  uninitialized: firestore.client() failed at import time, db is None
    and the save block is skipped (questions.py lines 29-34, 171).
  available ids failSetAt: the store serves writes; the i-th
    document() call returns the fresh id ids i, and doc_ref.set raises
    an exception on the write of index failSetAt (none: no write
    fails). -/
inductive Store where
  | uninitialized
  | available (ids : Nat → String) (failSetAt : Option Nat)

/-- The body of the Firestore saving loop (questions.py lines 174-185)
on the suffix of cleaned starting at index i: each iteration obtains a
fresh document id, assigns it into the question record, then writes the
record; when the write at index failSetAt raises, the loop is aborted by
the surrounding try/except and the remaining records keep their null
id.  Note the record whose write failed has already received its id. -/
def persistGo (ids : Nat → String) (failSetAt : Option Nat) : Nat → List Question → List Question
  | _, [] => []
  | i, q :: rest =>
    match failSetAt with
    | none => { q with id := some (ids i) } :: persistGo ids none (i + 1) rest
    | some k =>
      if i ≤ k then { q with id := some (ids i) } :: persistGo ids (some k) (i + 1) rest
      else q :: rest

/-- The Firebase saving block of questions.py lines 170-186: skipped
entirely when the client was never initialized, otherwise the loop over
cleaned with every exception caught and logged. -/
def persist : Store → List Question → List Question
  | Store.uninitialized, cleaned => cleaned
  | Store.available ids failSetAt, cleaned => persistGo ids failSetAt 0 cleaned

instance {ε α : Type} [DecidableEq ε] [DecidableEq α] : DecidableEq (Except ε α) := fun a b =>
  match a, b with
  | Except.error e, Except.error f =>
    if h : e = f then Decidable.isTrue (congrArg Except.error h)
    else Decidable.isFalse (by intro hh; cases hh; exact h rfl)
  | Except.error _, Except.ok _ => Decidable.isFalse (by intro hh; cases hh)
  | Except.ok _, Except.error _ => Decidable.isFalse (by intro hh; cases hh)
  | Except.ok x, Except.ok y =>
    if h : x = y then Decidable.isTrue (congrArg Except.ok h)
    else Decidable.isFalse (by intro hh; cases hh; exact h rfl)

/-- The success body of POST /generate-quiz (questions.py line 188). -/
structure QuizResponse where
  questions : List Question
  quizTitle : String
  deriving Repr, DecidableEq

/-- Embedding of the generate_quiz endpoint (questions.py lines
139-188).  The pair component counts the POSTs made to the upstream
API.  Control flow of the source: the topic-mode validation (line 144),
the mode-to-count mapping (line 147), a single _call_gemini (line 150),
truncation of the upstream list to count items followed by per-item
validation (lines 152-165), the empty-result 502 guard (lines 167-168),
best-effort persistence (lines 170-186) and the response (line 188). -/
def generate_quiz (key : Option String) (net : Nat → NetOutcome) (store : Store)
    (req : GenerateRequest) : Except HTTPError QuizResponse × Nat :=
  if topicInvalid req then
    (Except.error { status := 400, detail := "A valid topic is required for topic-wise mode" }, 0)
  else
    match callGemini key net (promptFor req.subject req.topic (modeCount req.mode)) 0 with
    | (Except.error e, k) => (Except.error e, k)
    | (Except.ok items, k) =>
      if ((items.take (modeCount req.mode)).filterMap (cleanItem req.subject req.topic)).isEmpty then
        (Except.error { status := 502, detail := "AI generated malformed data. Please try again." },
         k)
      else
        (Except.ok
          { questions :=
              persist store
                ((items.take (modeCount req.mode)).filterMap (cleanItem req.subject req.topic))
            quizTitle := req.subject ++ " - " ++ pyTitle (replaceUnderscores req.mode) ++ " Practice" },
         k)

/-- The request body of POST /generate-explanation.  The endpoint takes a
raw JSON object (request: dict = Body(...)), so every field may be
absent; userAnswer defaults to the empty string and options to the empty
list via request.get (questions.py lines 196-204). -/
structure ExplanationRequest where
  question : Option String := none
  options : Option (List String) := none
  correctAnswer : Option String := none
  userAnswer : Option String := none
  deriving Repr, DecidableEq

/-- The body of every response of POST /generate-explanation. -/
structure ExplanationResponse where
  explanation : String
  deriving Repr, DecidableEq

/-- The outcome of the single POST of _call_gemini_single:
  failure: any exception inside its try block - RequestException,
    raise_for_status on a non-2xx status, an undecodable JSON body or
    missing envelope nesting.  All of them are caught by the blanket
    except of questions.py line 131.
  ok text: a 2xx response whose envelope carries the text field. -/
inductive SingleOutcome where
  | failure
  | ok (text : String)
  deriving Repr, DecidableEq

/-- Embedding of _call_gemini_single (questions.py lines 120-133).  The
key lookup happens at line 123, outside the try block, so a missing
GEMINI_API_KEY raises HTTPException 500 out of the function; every
failure of the call itself degrades to the fixed unavailability
string. -/
def callGeminiSingle (key : Option String) (out : SingleOutcome) (prompt : String) :
    Except HTTPError String :=
  match key with
  | none => Except.error { status := 500, detail := "GEMINI_API_KEY is not set on backend" }
  | some _ =>
    match out with
    | SingleOutcome.failure => Except.ok "Explanation not available at the moment."
    | SingleOutcome.ok text => Except.ok text.trim

/-- The numbered option lines built at questions.py line 223. -/
def numberOptions : Nat → List String → List String
  | _, [] => []
  | i, o :: rest => (toString i ++ ". " ++ o) :: numberOptions (i + 1) rest

/-- The explanation prompt f-string of questions.py lines 217-229,
including its source indentation; \x27 is an ASCII apostrophe. -/
def explanationPrompt (question : String) (options : List String)
    (correctAnswer userAnswer : String) : String :=
  "\n        Explain why the correct answer is \"" ++ correctAnswer ++
  "\" for this question:\n        \n        Question: " ++ question ++
  "\n        \n        Options:\n        " ++
  String.intercalate "\n" (numberOptions 1 options) ++
  "\n        \n        The user answered: \"" ++
  (if userAnswer = "" then "No answer provided" else userAnswer) ++
  "\"\n        \n        Provide a detailed, educational explanation suitable for JEE Mains preparation.\n        Explain the concept, why the correct answer is right, and why the user\x27s answer (if wrong) is incorrect.\n        "

/-- The required-field test of questions.py line 213:
not question or not options or not correct_answer, with the Python
falsiness of None, the empty string and the empty list. -/
def missingFields (req : ExplanationRequest) : Bool :=
  (req.question.getD "" == "") || (req.options.getD []).isEmpty ||
    (req.correctAnswer.getD "" == "")

/-- Embedding of the generate_explanation endpoint (questions.py lines
195-237).  The whole handler body sits in a try/except whose handler
returns the Correct answer fallback string; the only raising operation
in the embedded paths is the key lookup inside _call_gemini_single.  The
return type has no error alternative: the endpoint always answers 200
with an explanation string. -/
def generate_explanation (key : Option String) (out : SingleOutcome)
    (req : ExplanationRequest) : ExplanationResponse :=
  if missingFields req then { explanation := "Missing required question data." }
  else
    match callGeminiSingle key out
        (explanationPrompt (req.question.getD "") (req.options.getD [])
          (req.correctAnswer.getD "") (req.userAnswer.getD "")) with
    | Except.ok s => { explanation := s }
    | Except.error _ =>
      { explanation := "Correct answer: " ++ req.correctAnswer.getD "the correct option" ++
          ". This question tests important concepts for JEE Mains. Review the related topic for better understanding." }

/-- The success body of GET /topics (questions.py line 137). -/
structure TopicsResponse where
  subject : String
  topics : List String
  deriving Repr, DecidableEq

/-- A FastAPI query-parameter validation failure: the framework rejects
the request with status 422 before the handler body runs. -/
inductive QueryError where
  | patternMismatch
  deriving Repr, DecidableEq

/-- The query pattern of questions.py line 136, the regular expression
matching exactly the three subject names anchored at both ends. -/
def topicsSubjectOk (s : String) : Bool :=
  s == "Physics" || s == "Chemistry" || s == "Maths"

/-- Embedding of the list_topics endpoint (questions.py lines 135-137):
the Query pattern is checked by FastAPI before the handler, so a subject
outside the enumeration never reaches the NTA_SYLLABUS.get call and the
request fails with a 422 validation error instead. -/
def list_topics (subject : String) : Except QueryError TopicsResponse :=
  if topicsSubjectOk subject then
    Except.ok { subject := subject, topics := syllabusGetD subject }
  else Except.error QueryError.patternMismatch

/-! Concrete fixtures used by the witnesses and counterexamples. -/

/-- A structurally well-formed upstream item with four options. -/
def goodItem : RawItem :=
  { question := some "Q1", options := some ["A", "B", "C", "D"], answer_index := some 1 }

/-- A second well-formed upstream item. -/
def goodItem2 : RawItem :=
  { question := some "Q2", options := some ["P", "Q", "R", "S"], answer_index := some 0 }

/-- An upstream item missing the answer_index key: dropped by the
validation loop. -/
def badItem : RawItem :=
  { question := some "Q0", options := some ["A", "B", "C", "D"] }

/-- An upstream item with five options and answer_index 4: structurally
outside the specified Question shape, yet kept by the validation loop
because the option count is never checked. -/
def fiveOptItem : RawItem :=
  { question := some "Q5", options := some ["A", "B", "C", "D", "E"], answer_index := some 4 }

/-- The Question that generate_quiz builds from goodItem for a Physics
request with no topic. -/
def goodQuestion : Question :=
  { id := none, subject := "Physics", topic := "Mixed", question := "Q1",
    options := ["A", "B", "C", "D"], answer_index := 1, correctAnswer := "B",
    hint := "No hint available.", explanation := "No explanation available." }

/-- The Question that generate_quiz builds from goodItem2 for a Physics
request with no topic. -/
def goodQuestion2 : Question :=
  { id := none, subject := "Physics", topic := "Mixed", question := "Q2",
    options := ["P", "Q", "R", "S"], answer_index := 0, correctAnswer := "P",
    hint := "No hint available.", explanation := "No explanation available." }

/-- A quick-mode Physics request. -/
def reqQuick : GenerateRequest := { subject := "Physics", mode := "quick" }

/-- A network oracle that always answers 200 with a single valid item. -/
def netGood : Nat → NetOutcome :=
  fun _ => NetOutcome.response 200 (GeminiBody.items [goodItem])

/-- A network oracle that always answers 200 with two valid items. -/
def netGood2 : Nat → NetOutcome :=
  fun _ => NetOutcome.response 200 (GeminiBody.items [goodItem, goodItem2])

/-- A deterministic supply of fresh Firestore document ids. -/
def docIds : Nat → String := fun i => "doc" ++ toString i

/-- A family of well-formed items differing only in question text. -/
def mkItem (s : String) : RawItem :=
  { question := some s, options := some ["A", "B", "C", "D"], answer_index := some 0 }

/-- The Question generate_quiz builds from mkItem s for a Physics
request with no topic. -/
def mkQuestion (s : String) : Question :=
  { id := none, subject := "Physics", topic := "Mixed", question := s,
    options := ["A", "B", "C", "D"], answer_index := 0, correctAnswer := "A",
    hint := "No hint available.", explanation := "No explanation available." }

/-- Five valid upstream items. -/
def items5 : List RawItem :=
  [mkItem "A1", mkItem "A2", mkItem "A3", mkItem "A4", mkItem "A5"]

/-- Six upstream items: the first is malformed, the remaining five are
valid, so the batch holds five valid items in total. -/
def items6 : List RawItem := badItem :: items5

/-- A network oracle that always answers 200 with the five valid items. -/
def net5 : Nat → NetOutcome := fun _ => NetOutcome.response 200 (GeminiBody.items items5)

/-- A network oracle answering 200 with a single invalid item. -/
def netBad : Nat → NetOutcome := fun _ => NetOutcome.response 200 (GeminiBody.items [badItem])

/-- A network oracle failing every POST with a connection error. -/
def netFailOnce : Nat → NetOutcome := fun _ => NetOutcome.netFailure "boom"

/-- A network oracle timing out on every POST. -/
def netTimeoutOnce : Nat → NetOutcome := fun _ => NetOutcome.timeout "read timed out"

/-- A network oracle whose first POST draws a retryable 503 and whose
second POST would succeed. -/
def netTransientThenGood : Nat → NetOutcome :=
  fun n =>
    if n = 0 then NetOutcome.response 503 (GeminiBody.items [])
    else NetOutcome.response 200 (GeminiBody.items [goodItem])

/-- The Question generate_quiz builds from fiveOptItem. -/
def fiveOptQuestion : Question :=
  { id := none, subject := "Physics", topic := "Mixed", question := "Q5",
    options := ["A", "B", "C", "D", "E"], answer_index := 4, correctAnswer := "E",
    hint := "No hint available.", explanation := "No explanation available." }

/-- The success body of the netGood quick run. -/
def respGood : QuizResponse :=
  { questions := [goodQuestion], quizTitle := "Physics - Quick Practice" }

/-- The success body of the net5 quick run. -/
def resp5 : QuizResponse :=
  { questions := [mkQuestion "A1", mkQuestion "A2", mkQuestion "A3", mkQuestion "A4",
                  mkQuestion "A5"],
    quizTitle := "Physics - Quick Practice" }

/-- A quick-mode request with a subject outside the syllabus registry. -/
def reqBio : GenerateRequest := { subject := "Biology", mode := "quick" }

/-- The Question generate_quiz builds from goodItem for the Biology
request. -/
def bioQuestion : Question :=
  { id := none, subject := "Biology", topic := "Mixed", question := "Q1",
    options := ["A", "B", "C", "D"], answer_index := 1, correctAnswer := "B",
    hint := "No hint available.", explanation := "No explanation available." }

/-- A topic-mode request whose topic is not in the Physics registry
list. -/
def reqBadTopic : GenerateRequest :=
  { subject := "Physics", mode := "topic", topic := some "Astrology" }

/-- The success body of GET /topics for Physics. -/
def respPhysics : TopicsResponse :=
  { subject := "Physics", topics := syllabusGetD "Physics" }

/-! Helper definitions and lemmas shared by the claim theorems. -/

/-- Erase the store-assigned identifier of a question. -/
def stripId (q : Question) : Question := { q with id := none }

/-- Erase every store-assigned identifier in a generate-quiz result. -/
def stripIds : Except HTTPError QuizResponse → Except HTTPError QuizResponse
  | Except.error e => Except.error e
  | Except.ok r => Except.ok { r with questions := r.questions.map stripId }

theorem persistGo_map_stripId (ids : Nat → String) (f : Option Nat) :
    ∀ (i : Nat) (l : List Question), (persistGo ids f i l).map stripId = l.map stripId := by
  intro i l
  induction l generalizing i with
  | nil => rfl
  | cons q rest ih =>
    cases f with
    | none => simpa [persistGo, stripId] using ih (i + 1)
    | some k =>
      by_cases h : i ≤ k
      · simpa [persistGo, h, stripId] using ih (i + 1)
      · simp [persistGo, h]

theorem persist_map_stripId (s : Store) (l : List Question) :
    (persist s l).map stripId = l.map stripId := by
  cases s with
  | uninitialized => rfl
  | available ids f => exact persistGo_map_stripId ids f 0 l

theorem persist_length (s : Store) (l : List Question) :
    (persist s l).length = l.length := by
  have h := congrArg List.length (persist_map_stripId s l)
  simpa using h

theorem persist_ne_nil {s : Store} {l : List Question} (h : l ≠ []) : persist s l ≠ [] := by
  intro hc
  apply h
  have hl := persist_length s l
  rw [hc] at hl
  exact List.length_eq_zero.mp hl.symm

theorem persist_mem {s : Store} {l : List Question} {q : Question} (hq : q ∈ persist s l) :
    ∃ p, p ∈ l ∧ stripId p = stripId q := by
  have h1 : stripId q ∈ (persist s l).map stripId := List.mem_map_of_mem _ hq
  rw [persist_map_stripId] at h1
  rcases List.mem_map.mp h1 with ⟨p, hp, hpe⟩
  exact ⟨p, hp, hpe⟩

theorem stripId_fields {p q : Question} (h : stripId p = stripId q) :
    p.options = q.options ∧ p.answer_index = q.answer_index ∧
      p.correctAnswer = q.correctAnswer := by
  have h1 := congrArg Question.options h
  have h2 := congrArg Question.answer_index h
  have h3 := congrArg Question.correctAnswer h
  simp only [stripId] at h1 h2 h3
  exact ⟨h1, h2, h3⟩

theorem cleanItem_some_pyGet {s : String} {t : Option String} {it : RawItem} {q : Question}
    (h : cleanItem s t it = some q) :
    pyGet q.options q.answer_index = some q.correctAnswer := by
  unfold cleanItem at h
  split at h
  · cases h
  split at h
  · cases h
  split at h
  · cases h
  split at h
  · cases h
  rename_i ca hp
  cases h
  exact hp

theorem cleanItem_none_of_missing {s : String} {t : Option String} {it : RawItem}
    (h : it.question = none ∨ it.options = none ∨ it.answer_index = none) :
    cleanItem s t it = none := by
  unfold cleanItem
  cases hai : it.answer_index with
  | none => rfl
  | some ai =>
    cases hq2 : it.question with
    | none => rfl
    | some qt =>
      cases ho : it.options with
      | none => rfl
      | some opts =>
        rw [hai, hq2, ho] at h
        rcases h with h | h | h <;> cases h

theorem pyGet_some_bounds {l : List String} {i : Int} {a : String}
    (h : pyGet l i = some a) :
    l ≠ [] ∧ -(l.length : Int) ≤ i ∧ i < (l.length : Int) := by
  unfold pyGet at h
  by_cases hneg : i < 0
  · rw [if_pos hneg] at h
    by_cases hge : (0 : Int) ≤ (l.length : Int) + i
    · rw [if_pos hge] at h
      have hlt : ((l.length : Int) + i).toNat < l.length := by
        by_contra hc
        rw [List.get?_eq_none.mpr (Nat.le_of_not_lt hc)] at h
        cases h
      refine ⟨?_, by omega, by omega⟩
      intro hnil
      subst hnil
      simp at hlt
    · rw [if_neg hge] at h; cases h
  · rw [if_neg hneg] at h
    have hlt : i.toNat < l.length := by
      by_contra hc
      rw [List.get?_eq_none.mpr (Nat.le_of_not_lt hc)] at h
      cases h
    refine ⟨?_, by omega, by omega⟩
    intro hnil
    subst hnil
    simp at hlt

theorem length_filterMap_all_some {α β : Type} (f : α → Option β) :
    ∀ l : List α, (∀ x, x ∈ l → (f x).isSome = true) → (l.filterMap f).length = l.length := by
  intro l
  induction l with
  | nil => intro _; rfl
  | cons a rest ih =>
    intro h
    have ha := h a (List.mem_cons_self a rest)
    rcases Option.isSome_iff_exists.mp ha with ⟨b, hb⟩
    simp [List.filterMap_cons, hb, ih (fun x hx => h x (List.mem_cons_of_mem a hx))]

theorem callGemini_snd_le (key : Option String) (net : Nat → NetOutcome) (prompt : String)
    (k : Nat) : (callGemini key net prompt k).snd ≤ k + 1 := by
  unfold callGemini
  cases key with
  | none => simp
  | some _ =>
    cases net k with
    | netFailure msg => simp
    | timeout msg => simp
    | response status body =>
      by_cases h : 400 ≤ status ∧ status < 600
      · simp [h]
      · cases body <;> simp [h]

theorem generate_quiz_ok_shape {key : Option String} {net : Nat → NetOutcome} {store : Store}
    {req : GenerateRequest} {r : QuizResponse}
    (h : (generate_quiz key net store req).fst = Except.ok r) :
    ∃ items : List RawItem,
      ((items.take (modeCount req.mode)).filterMap (cleanItem req.subject req.topic)) ≠ [] ∧
      r.questions =
        persist store
          ((items.take (modeCount req.mode)).filterMap (cleanItem req.subject req.topic)) := by
  unfold generate_quiz at h
  split at h
  · simp at h
  · split at h
    · simp at h
    · rename_i items k heq
      split at h
      · simp at h
      · rename_i hne
        refine ⟨items, ?_, ?_⟩
        · intro hnil
          rw [hnil] at hne
          simp at hne
        · simp only [] at h
          cases h
          rfl

theorem generate_quiz_items_eq (k2 : String) (net : Nat → NetOutcome) (store : Store)
    (req : GenerateRequest) (items : List RawItem)
    (hvalid : topicInvalid req = false)
    (hnet : net 0 = NetOutcome.response 200 (GeminiBody.items items)) :
    generate_quiz (some k2) net store req =
      (if ((items.take (modeCount req.mode)).filterMap (cleanItem req.subject req.topic)).isEmpty
       then
        (Except.error { status := 502, detail := "AI generated malformed data. Please try again." },
         1)
       else
        (Except.ok
          { questions :=
              persist store
                ((items.take (modeCount req.mode)).filterMap (cleanItem req.subject req.topic))
            quizTitle := req.subject ++ " - " ++ pyTitle (replaceUnderscores req.mode) ++ " Practice" },
         1)) := by
  unfold generate_quiz callGemini
  rw [hvalid, hnet]
  norm_num

theorem generate_quiz_netFailure_eq (k2 : String) (net : Nat → NetOutcome) (store : Store)
    (req : GenerateRequest) (msg : String)
    (hvalid : topicInvalid req = false)
    (hnet : net 0 = NetOutcome.netFailure msg) :
    generate_quiz (some k2) net store req =
      (Except.error { status := 502, detail := "AI connection error: " ++ msg }, 1) := by
  unfold generate_quiz callGemini
  rw [hvalid, hnet]
  norm_num

theorem generate_quiz_timeout_eq (k2 : String) (net : Nat → NetOutcome) (store : Store)
    (req : GenerateRequest) (msg : String)
    (hvalid : topicInvalid req = false)
    (hnet : net 0 = NetOutcome.timeout msg) :
    generate_quiz (some k2) net store req =
      (Except.error { status := 502, detail := "AI connection error: " ++ msg }, 1) := by
  unfold generate_quiz callGemini
  rw [hvalid, hnet]
  norm_num

theorem callGemini_some_snd (k2 : String) (net : Nat → NetOutcome) (prompt : String) (k : Nat) :
    (callGemini (some k2) net prompt k).snd = k + 1 := by
  unfold callGemini
  cases net k with
  | netFailure msg => rfl
  | timeout msg => rfl
  | response status body =>
    by_cases hs : 400 ≤ status ∧ status < 600
    · simp [hs]
    · cases body <;> simp [hs]

theorem callGemini_error_status (key : Option String) (net : Nat → NetOutcome) (prompt : String)
    (k : Nat) (e : HTTPError)
    (h : (callGemini key net prompt k).fst = Except.error e) :
    e.status = 500 ∨ e.status = 502 := by
  unfold callGemini at h
  split at h
  · simp at h
    subst h
    left; rfl
  · split at h
    · simp at h
      subst h
      right; rfl
    · simp at h
      subst h
      right; rfl
    · split at h
      · simp at h
        subst h
        right; rfl
      · split at h
        · simp at h
          subst h
          left; rfl
        · simp at h
          subst h
          left; rfl
        · simp at h
          subst h
          right; rfl
        · simp at h

theorem generate_quiz_snd_valid (k2 : String) (net : Nat → NetOutcome) (store : Store)
    (req : GenerateRequest) (hv : topicInvalid req = false) :
    (generate_quiz (some k2) net store req).snd = 1 := by
  unfold generate_quiz
  rw [hv]
  simp only [Bool.false_eq_true, if_false]
  rcases hcg : callGemini (some k2) net (promptFor req.subject req.topic (modeCount req.mode)) 0
    with ⟨res, k⟩
  have hk : k = 1 := by
    have h2 := callGemini_some_snd k2 net (promptFor req.subject req.topic (modeCount req.mode)) 0
    rw [hcg] at h2
    simpa using h2
  cases res with
  | error e => simpa using hk
  | ok items =>
    dsimp only
    split
    · simpa using hk
    · simpa using hk

/-! The claim theorems. -/

/-- C6: if the upstream batch yields zero valid items, generate-quiz
fails with the 502 malformed-data error (the UnusableUpstreamOutput
kind of the specification); it never returns a success response whose
questions list is empty. -/
theorem C6_no_empty_success (k2 : String) (net : Nat → NetOutcome) (store : Store)
    (req : GenerateRequest) :
    (∀ r : QuizResponse, (generate_quiz (some k2) net store req).fst = Except.ok r →
      r.questions ≠ []) ∧
    (∀ items : List RawItem, topicInvalid req = false →
      net 0 = NetOutcome.response 200 (GeminiBody.items items) →
      (items.take (modeCount req.mode)).filterMap (cleanItem req.subject req.topic) = [] →
      (generate_quiz (some k2) net store req).fst =
        Except.error { status := 502,
                       detail := "AI generated malformed data. Please try again." }) := by
  constructor
  · intro r hr
    rcases generate_quiz_ok_shape hr with ⟨items, hne, hq⟩
    rw [hq]
    exact persist_ne_nil hne
  · intro items hvalid hnet hempty
    rw [generate_quiz_items_eq k2 net store req items hvalid hnet]
    simp [hempty]

/-- Witness for C6: a batch whose single item lacks answer_index yields
the 502 malformed-data error. -/
theorem C6_no_empty_success_witness :
    (generate_quiz (some "k") netBad Store.uninitialized reqQuick).fst =
      Except.error { status := 502, detail := "AI generated malformed data. Please try again." } :=
  (C6_no_empty_success "k" netBad Store.uninitialized reqQuick).2 [badItem] (by decide) rfl
    (by decide)

/-- C8: generate-explanation always returns a success body carrying an
explanation string - its return type has no error alternative.  Missing
question, options or correctAnswer yield the fixed placeholder; an
upstream failure degrades inside _call_gemini_single to the fixed
unavailability string; and an internal error (the missing-key
HTTPException, the one raising operation on the embedded paths) is
caught by the outer handler and degrades to the Correct answer fallback
string. -/
theorem C8_explanation_total (key : Option String) (out : SingleOutcome)
    (req : ExplanationRequest) :
    (missingFields req = true →
      generate_explanation key out req = { explanation := "Missing required question data." }) ∧
    (missingFields req = false → ∀ k2 : String, key = some k2 → out = SingleOutcome.failure →
      generate_explanation key out req =
        { explanation := "Explanation not available at the moment." }) ∧
    (missingFields req = false → key = none →
      generate_explanation key out req =
        { explanation := "Correct answer: " ++ req.correctAnswer.getD "the correct option" ++
            ". This question tests important concepts for JEE Mains. Review the related topic for better understanding." }) := by
  refine ⟨?_, ?_, ?_⟩
  · intro h
    simp [generate_explanation, h]
  · intro h k2 hk hout
    subst hk
    subst hout
    simp [generate_explanation, h, callGeminiSingle]
  · intro h hk
    subst hk
    simp [generate_explanation, h, callGeminiSingle]

/-- Witness for C8: a body missing options and correctAnswer receives
the placeholder string. -/
theorem C8_explanation_total_witness :
    generate_explanation (some "k") SingleOutcome.failure { question := some "Q" } =
      { explanation := "Missing required question data." } :=
  (C8_explanation_total (some "k") SingleOutcome.failure { question := some "Q" }).1 (by decide)

/-- C9 counterexample: GET /topics with the unknown subject Biology is
rejected by the query-pattern validation (a 422, the handler never
runs), not answered with an empty topics list as the claim states. -/
theorem C9_counterexample :
    list_topics "Biology" = Except.error QueryError.patternMismatch ∧
    list_topics "Biology" ≠ Except.ok { subject := "Biology", topics := [] } :=
  ⟨by decide, by decide⟩

/-- C9 amended: a successful GET /topics response only ever carries one
of the three enumerated subjects, echoing that subject and its non-empty
registry list; any other subject string fails the query-pattern
validation instead of producing an empty-list success. -/
theorem C9_amended (s : String) :
    (∀ r : TopicsResponse, list_topics s = Except.ok r →
      (s = "Physics" ∨ s = "Chemistry" ∨ s = "Maths") ∧
      r.subject = s ∧ r.topics = syllabusGetD s ∧ r.topics ≠ []) ∧
    (topicsSubjectOk s = false → list_topics s = Except.error QueryError.patternMismatch) := by
  constructor
  · intro r hr
    unfold list_topics at hr
    by_cases hs : topicsSubjectOk s = true
    · rw [if_pos hs] at hr
      cases hr
      simp only [topicsSubjectOk, Bool.or_eq_true, beq_iff_eq] at hs
      have hs2 : s = "Physics" ∨ s = "Chemistry" ∨ s = "Maths" := by tauto
      refine ⟨hs2, rfl, rfl, ?_⟩
      rcases hs2 with h | h | h <;> subst h <;> decide
    · rw [if_neg hs] at hr
      cases hr
  · intro hfalse
    unfold list_topics
    rw [hfalse]
    simp

/-- Witness for C9 at the known subject Physics: the response echoes the
subject and its non-empty topic list. -/
theorem C9_amended_witness :
    ("Physics" = "Physics" ∨ "Physics" = "Chemistry" ∨ "Physics" = "Maths") ∧
    respPhysics.subject = "Physics" ∧ respPhysics.topics = syllabusGetD "Physics" ∧
    respPhysics.topics ≠ [] :=
  (C9_amended "Physics").1 respPhysics (by decide)

/-- C10: generate_quiz truncates the upstream list to the first count
elements before per-item validation, so the response is unchanged when
every item beyond position count is removed; concretely, a quick-mode
run whose six-item batch holds five valid items (the first item being
malformed) returns only four questions. -/
theorem C10_truncate_before_validate :
    (∀ (k2 : String) (store : Store) (req : GenerateRequest) (items : List RawItem),
      generate_quiz (some k2) (fun _ => NetOutcome.response 200 (GeminiBody.items items)) store
          req =
        generate_quiz (some k2)
          (fun _ => NetOutcome.response 200 (GeminiBody.items (items.take (modeCount req.mode))))
          store req) ∧
    (items6.filterMap (cleanItem "Physics" none)).length = 5 ∧
    ((generate_quiz (some "k") (fun _ => NetOutcome.response 200 (GeminiBody.items items6))
        Store.uninitialized reqQuick).fst.toOption.map (fun r => r.questions.length)) = some 4 := by
  refine ⟨?_, by decide, by decide⟩
  intro k2 store req items
  by_cases hval : topicInvalid req = true
  · simp [generate_quiz, hval]
  · have hv : topicInvalid req = false := by
      cases h2 : topicInvalid req
      · rfl
      · exact absurd h2 hval
    rw [generate_quiz_items_eq k2 _ store req items hv rfl,
        generate_quiz_items_eq k2 _ store req (items.take (modeCount req.mode)) hv rfl,
        List.take_take]
    simp

/-- C1 counterexample: an upstream item with five options and
answer_index 4 is kept, so the returned question violates the claimed
len(options) == 4 invariant instead of being dropped. -/
theorem C1_counterexample :
    (generate_quiz (some "k") (fun _ => NetOutcome.response 200 (GeminiBody.items [fiveOptItem]))
        Store.uninitialized reqQuick).fst =
      Except.ok { questions := [fiveOptQuestion], quizTitle := "Physics - Quick Practice" } ∧
    fiveOptQuestion.options.length ≠ 4 :=
  ⟨by decide, by decide⟩

/-- C1 amended: every returned Question satisfies correctAnswer =
options[answer_index] under Python indexing semantics, with answer_index
in the Python-valid range [-len(options), len(options)); items missing
the question, options or answer_index key are dropped, as are items
whose index falls outside that range, but the option count is never
validated (and a negative in-range index is accepted), so
len(options) == 4 and 0 <= answer_index are not guaranteed. -/
theorem C1_amended (key : Option String) (net : Nat → NetOutcome) (store : Store)
    (req : GenerateRequest) (r : QuizResponse)
    (h : (generate_quiz key net store req).fst = Except.ok r) :
    (∀ q : Question, q ∈ r.questions →
      pyGet q.options q.answer_index = some q.correctAnswer ∧
      q.options ≠ [] ∧
      -(q.options.length : Int) ≤ q.answer_index ∧ q.answer_index < (q.options.length : Int)) ∧
    (∀ it : RawItem, it.question = none ∨ it.options = none ∨ it.answer_index = none →
      cleanItem req.subject req.topic it = none) := by
  constructor
  · intro q hq
    rcases generate_quiz_ok_shape h with ⟨items, _, hqs⟩
    rw [hqs] at hq
    rcases persist_mem hq with ⟨p, hp, hpe⟩
    rcases List.mem_filterMap.mp hp with ⟨it, _, hit⟩
    have hpy := cleanItem_some_pyGet hit
    rcases stripId_fields hpe with ⟨hopts, hai, hca⟩
    rw [hopts, hai, hca] at hpy
    exact ⟨hpy, (pyGet_some_bounds hpy).1, (pyGet_some_bounds hpy).2.1,
           (pyGet_some_bounds hpy).2.2⟩
  · intro it h2
    exact cleanItem_none_of_missing h2

/-- Witness for C1 at the netGood quick run: the returned question
satisfies the Python-indexing invariant. -/
theorem C1_amended_witness :
    pyGet goodQuestion.options goodQuestion.answer_index = some goodQuestion.correctAnswer ∧
    goodQuestion.options ≠ [] ∧
    -(goodQuestion.options.length : Int) ≤ goodQuestion.answer_index ∧
    goodQuestion.answer_index < (goodQuestion.options.length : Int) :=
  (C1_amended (some "k") netGood Store.uninitialized reqQuick respGood (by decide)).1
    goodQuestion (by decide)

/-- C2 counterexample: in quick mode (target 5) the upstream returns six
items of which five are valid - enough valid items - yet the response
carries only four questions, because the list is truncated to five
items before validation and the malformed first item is then dropped. -/
theorem C2_counterexample :
    (items6.filterMap (cleanItem "Physics" none)).length = 5 ∧
    modeCount "quick" = 5 ∧
    ((generate_quiz (some "k") (fun _ => NetOutcome.response 200 (GeminiBody.items items6))
        Store.uninitialized reqQuick).fst.toOption.map (fun r => r.questions.length)) = some 4 :=
  ⟨by decide, by decide, by decide⟩

/-- C2 amended: generate-quiz never returns more than the target count
for the mode; every successful run returns exactly the number of valid
items among the first target-count upstream items - hence exactly the
target when those are all valid and the batch is large enough, and
fewer otherwise, even when later batch positions held further valid
items (the single upstream call is never repeated to top the batch
up). -/
theorem C2_amended (k2 : String) (net : Nat → NetOutcome) (store : Store)
    (req : GenerateRequest) (items : List RawItem) (r : QuizResponse)
    (hnet : net 0 = NetOutcome.response 200 (GeminiBody.items items))
    (h : (generate_quiz (some k2) net store req).fst = Except.ok r) :
    r.questions.length ≤ modeCount req.mode ∧
    r.questions.length =
      ((items.take (modeCount req.mode)).filterMap (cleanItem req.subject req.topic)).length ∧
    ((∀ it, it ∈ items.take (modeCount req.mode) →
        (cleanItem req.subject req.topic it).isSome = true) →
      modeCount req.mode ≤ items.length → r.questions.length = modeCount req.mode) := by
  have hval : topicInvalid req = false := by
    cases hv : topicInvalid req with
    | false => rfl
    | true =>
      unfold generate_quiz at h
      rw [hv] at h
      simp at h
  rw [generate_quiz_items_eq k2 net store req items hval hnet] at h
  by_cases he :
      ((items.take (modeCount req.mode)).filterMap (cleanItem req.subject req.topic)).isEmpty
  · rw [if_pos he] at h
    simp at h
  · rw [if_neg he] at h
    cases h
    refine ⟨?_, ?_, ?_⟩
    · rw [persist_length]
      calc ((items.take (modeCount req.mode)).filterMap
              (cleanItem req.subject req.topic)).length
          ≤ (items.take (modeCount req.mode)).length := List.length_filterMap_le _ _
        _ ≤ modeCount req.mode := by
            rw [List.length_take]
            omega
    · rw [persist_length]
    · intro hall hlen
      rw [persist_length, length_filterMap_all_some _ _ hall, List.length_take]
      omega

/-- Witness for C2 at the net5 quick run: all five items of the batch
are valid and the response carries exactly the quick-mode target of
five questions. -/
theorem C2_amended_witness : resp5.questions.length = modeCount "quick" :=
  (C2_amended "k" net5 Store.uninitialized reqQuick items5 resp5 rfl (by decide)).2.2
    (by decide) (by decide)

/-- C3 counterexample: a single transient failure (a retryable HTTP 503)
followed by an available success still fails the whole request with 502
after exactly one POST - no retry is attempted, although the very next
attempt would have succeeded. -/
theorem C3_counterexample :
    generate_quiz (some "k") netTransientThenGood Store.uninitialized reqQuick =
      (Except.error { status := 502,
                      detail := "AI connection error: " ++ raiseForStatusMsg 503 }, 1) ∧
    (generate_quiz (some "k") (fun n => netTransientThenGood (n + 1)) Store.uninitialized
        reqQuick).fst =
      Except.ok { questions := [goodQuestion], quizTitle := "Physics - Quick Practice" } :=
  ⟨by decide, by decide⟩

/-- C3 amended: the upstream call is attempted at most once per request
- generate_quiz makes no retry and no backoff - and any RequestException
on that single attempt (here a network failure) immediately fails the
request with a 502 error. -/
theorem C3_amended (key : Option String) (net : Nat → NetOutcome) (store : Store)
    (req : GenerateRequest) :
    (generate_quiz key net store req).snd ≤ 1 ∧
    (∀ k2 msg : String, key = some k2 → topicInvalid req = false →
      net 0 = NetOutcome.netFailure msg →
      generate_quiz key net store req =
        (Except.error { status := 502, detail := "AI connection error: " ++ msg }, 1)) := by
  constructor
  · by_cases hv : topicInvalid req = true
    · simp [generate_quiz, hv]
    · have hv2 : topicInvalid req = false := by
        cases h2 : topicInvalid req
        · rfl
        · exact absurd h2 hv
      unfold generate_quiz
      rw [hv2]
      simp only [Bool.false_eq_true, if_false]
      have hb := callGemini_snd_le key net (promptFor req.subject req.topic (modeCount req.mode)) 0
      rcases hcg : callGemini key net (promptFor req.subject req.topic (modeCount req.mode)) 0
        with ⟨res, k⟩
      rw [hcg] at hb
      cases res with
      | error e => simpa using hb
      | ok items =>
        dsimp only
        split
        · simpa using hb
        · simpa using hb
  · intro k2 msg hk hval hnet
    subst hk
    exact generate_quiz_netFailure_eq k2 net store req msg hval hnet

/-- Witness for C3 at a network oracle that refuses the first
connection: the request fails 502 after one POST. -/
theorem C3_amended_witness :
    generate_quiz (some "k") netFailOnce Store.uninitialized reqQuick =
      (Except.error { status := 502, detail := "AI connection error: " ++ "boom" }, 1) :=
  (C3_amended (some "k") netFailOnce Store.uninitialized reqQuick).2 "k" "boom" rfl (by decide)
    rfl

/-- C4 counterexample: a timeout of the upstream request produces the
same 502 connection error as any other network failure - not a distinct
504 - because requests.Timeout is a RequestException and the handler
maps them all to 502. -/
theorem C4_counterexample :
    generate_quiz (some "k") netTimeoutOnce Store.uninitialized reqQuick =
      (Except.error { status := 502, detail := "AI connection error: " ++ "read timed out" },
       1) ∧
    (502 : Nat) ≠ 504 :=
  ⟨by decide, by decide⟩

/-- C4 amended: timeout is not a distinguishable failure mode: a timed
out upstream request yields the same HTTP 502 connection error as any
other network failure, and generate-quiz never answers 504 - every
error it produces has status 400, 500 or 502. -/
theorem C4_amended (key : Option String) (net : Nat → NetOutcome) (store : Store)
    (req : GenerateRequest) :
    (∀ e : HTTPError, (generate_quiz key net store req).fst = Except.error e →
      e.status = 400 ∨ e.status = 500 ∨ e.status = 502) ∧
    (∀ k2 msg : String, key = some k2 → topicInvalid req = false →
      net 0 = NetOutcome.timeout msg →
      generate_quiz key net store req =
        (Except.error { status := 502, detail := "AI connection error: " ++ msg }, 1)) := by
  constructor
  · intro e he
    unfold generate_quiz at he
    split at he
    · simp at he
      subst he
      left; rfl
    · split at he
      · rename_i e2 k heq
        simp at he
        subst he
        have h2 : (callGemini key net (promptFor req.subject req.topic (modeCount req.mode))
            0).fst = Except.error e2 := by
          rw [heq]
        rcases callGemini_error_status key net
            (promptFor req.subject req.topic (modeCount req.mode)) 0 e2 h2 with h3 | h3
        · right; left; exact h3
        · right; right; exact h3
      · split at he
        · simp at he
          subst he
          right; right; rfl
        · simp at he
  · intro k2 msg hk hval hnet
    subst hk
    exact generate_quiz_timeout_eq k2 net store req msg hval hnet

/-- Witness for C4 at a network oracle that times out: the request
fails with status 502. -/
theorem C4_amended_witness :
    generate_quiz (some "k") netTimeoutOnce Store.uninitialized reqQuick =
      (Except.error { status := 502, detail := "AI connection error: " ++ "read timed out" },
       1) :=
  (C4_amended (some "k") netTimeoutOnce Store.uninitialized reqQuick).2 "k" "read timed out" rfl
    (by decide) rfl

/-- C5 counterexample: a quick-mode request with the unknown subject
Biology is not rejected: the upstream is called once and the request
succeeds, instead of failing 400 with zero upstream calls as the claim
states for unknown subjects. -/
theorem C5_counterexample :
    generate_quiz (some "k") netGood Store.uninitialized reqBio =
      (Except.ok { questions := [bioQuestion], quizTitle := "Biology - Quick Practice" }, 1) := by
  decide

/-- C5 amended: only topic mode is validated: when mode is topic and
the topic is missing, empty, or not in the syllabus list of the
requested subject, generate-quiz fails 400 synchronously with zero
upstream calls; in every other mode no subject validation happens and
the single upstream POST is made even for an unknown subject. -/
theorem C5_amended (key : Option String) (net : Nat → NetOutcome) (store : Store)
    (req : GenerateRequest) :
    (topicInvalid req = true →
      generate_quiz key net store req =
        (Except.error { status := 400, detail := "A valid topic is required for topic-wise mode" },
         0)) ∧
    (∀ k2 : String, key = some k2 → req.mode ≠ "topic" →
      (generate_quiz key net store req).snd = 1) := by
  constructor
  · intro hv
    unfold generate_quiz
    rw [hv]
    simp
  · intro k2 hk hm
    subst hk
    have hv : topicInvalid req = false := by
      unfold topicInvalid
      rw [beq_eq_false_iff_ne.mpr hm]
      rfl
    exact generate_quiz_snd_valid k2 net store req hv

/-- Witness for C5: the invalid topic-mode request is rejected with 400
and zero upstream calls. -/
theorem C5_amended_witness :
    generate_quiz (some "k") netGood Store.uninitialized reqBadTopic =
      (Except.error { status := 400, detail := "A valid topic is required for topic-wise mode" },
       0) :=
  (C5_amended (some "k") netGood Store.uninitialized reqBadTopic).1 (by decide)

/-- C7 counterexample: with two questions to save and the store raising
on the very first write, the request still succeeds, but its body is
not the body the successful-persistence run produces: the second
question keeps a null id instead of the assigned doc1. -/
theorem C7_counterexample :
    (generate_quiz (some "k") netGood2 (Store.available docIds (some 0)) reqQuick).fst =
      Except.ok { questions := [{ goodQuestion with id := some "doc0" }, goodQuestion2],
                  quizTitle := "Physics - Quick Practice" } ∧
    (generate_quiz (some "k") netGood2 (Store.available docIds none) reqQuick).fst =
      Except.ok { questions := [{ goodQuestion with id := some "doc0" },
                                { goodQuestion2 with id := some "doc1" }],
                  quizTitle := "Physics - Quick Practice" } ∧
    (generate_quiz (some "k") netGood2 (Store.available docIds (some 0)) reqQuick).fst ≠
      (generate_quiz (some "k") netGood2 (Store.available docIds none) reqQuick).fst :=
  ⟨by decide, by decide, by decide⟩

/-- C7 amended: persistence is best-effort up to the id fields: for
every store behaviour - uninitialized client, fully successful writes,
or a write raising mid-loop - the request outcome (error or success and
which error), the HTTP status, the upstream call count, and the whole
body apart from the store-assigned id fields are identical to the run
that skips persistence; only the id fields differ, with questions whose
write never completed keeping a null id. -/
theorem C7_amended (key : Option String) (net : Nat → NetOutcome) (store : Store)
    (req : GenerateRequest) :
    stripIds (generate_quiz key net store req).fst =
      stripIds (generate_quiz key net Store.uninitialized req).fst ∧
    (generate_quiz key net store req).snd =
      (generate_quiz key net Store.uninitialized req).snd := by
  unfold generate_quiz
  by_cases hv : topicInvalid req = true
  · rw [hv]
    simp
  · have hv2 : topicInvalid req = false := by
      cases h2 : topicInvalid req
      · rfl
      · exact absurd h2 hv
    rw [hv2]
    simp only [Bool.false_eq_true, if_false]
    rcases hcg : callGemini key net (promptFor req.subject req.topic (modeCount req.mode)) 0
      with ⟨res, k⟩
    cases res with
    | error e => exact ⟨rfl, rfl⟩
    | ok items =>
      dsimp only
      split
      · exact ⟨rfl, rfl⟩
      · refine ⟨?_, rfl⟩
        simp only [stripIds]
        rw [persist_map_stripId]
        rfl

end JeeSolver
